import Mathlib

/-!
Verification of the root layout component of the mol-view-stories web
application (`src/app/layout.tsx`).

The file under study is a Next.js client component.  It imports a global
stylesheet, the `Inter` font loader from `next/font/google`, the
`Providers` context wrapper, and the Mol* viewer stylesheet, and it
renders

  <html lang="en"><body className={inter.className}>
    <Providers>{children}</Providers></body></html>

We embed the JSX element tree that the component constructs as an
inductive type and translate `RootLayout` into a Lean function on that
type.  Component elements (such as `Providers`) appear in the constructed
tree by name with their children held verbatim, exactly as a JSX
expression builds an element referencing the component without invoking
its body.
-/

namespace MolViewStories

/-- A React element tree as constructed by JSX: a host element carries a
tag, an attribute list and a child list; a component element carries the
component's name and its child list (the component body is not evaluated
when the tree is constructed); a text node carries a string. -/
inductive ReactNode where
  | element (tag : String) (attrs : List (String × String)) (children : List ReactNode)
  | component (name : String) (children : List ReactNode)
  | text (s : String)

/-- A font object returned by the `next/font` loading utilities: the part
relevant to the layout is the generated CSS class name. -/
structure NextFont where
  className : String

/-- Modelled from the spec: the font-loading utility `Inter` of
`next/font/google` (the hosting framework's font loader, whose code is
outside this repository).  At build time it deterministically produces a
font object carrying a generated class name for the requested subsets. -/
def Inter (subsets : List String) : NextFont :=
  { className := String.intercalate "_" ("__inter" :: subsets) }

/-- `const inter = Inter({ subsets: ["latin"] })` (layout.tsx line 8). -/
def inter : NextFont := Inter ["latin"]

/-- The module specifiers statically imported by `layout.tsx`, in source
order (lines 3-6): the global stylesheet, the font utility module, the
`Providers` module and the Mol* viewer stylesheet. -/
def moduleImports : List String :=
  ["./globals.css", "next/font/google", "./providers", "molstar/build/viewer/molstar.css"]

/-- Modelled from the spec: the external assets and collaborators the
spec declares the layout to consume — a global stylesheet, the hosting
framework's font-loading utility, the third-party visualization
library's stylesheet, and the provider component. -/
def declaredImports : List String :=
  ["./globals.css", "next/font/google", "molstar/build/viewer/molstar.css", "./providers"]

/-- `RootLayout` (layout.tsx lines 10-22): returns the JSX tree
`<html lang="en"><body className={inter.className}>
<Providers>{children}</Providers></body></html>`. -/
def RootLayout (children : ReactNode) : ReactNode :=
  .element "html" [("lang", "en")]
    [.element "body" [("className", inter.className)]
      [.component "Providers" [children]]]

mutual

/-- The number of host elements with tag `t` occurring anywhere in a
tree. -/
def countTag (t : String) : ReactNode → Nat
  | .element tag _ children => (if tag = t then 1 else 0) + countTagList t children
  | .component _ children => countTagList t children
  | .text _ => 0

/-- The number of host elements with tag `t` occurring in a list of
trees. -/
def countTagList (t : String) : List ReactNode → Nat
  | [] => 0
  | c :: cs => countTag t c + countTagList t cs

end

/-- The tag of the root of a tree, when the root is a host element. -/
def rootTag : ReactNode → Option String
  | .element t _ _ => some t
  | _ => none

/-- The attribute list of the root of a tree, when the root is a host
element. -/
def rootAttrs : ReactNode → List (String × String)
  | .element _ a _ => a
  | _ => []

/-- The first `body` element among the root element's direct children. -/
def bodyNode : ReactNode → Option ReactNode
  | .element _ _ ch =>
      ch.find? (fun x => match x with
        | .element "body" _ _ => true
        | _ => false)
  | _ => none

/-- The attribute list of the document's `body` element. -/
def bodyAttrs (n : ReactNode) : Option (List (String × String)) :=
  (bodyNode n).bind (fun b => match b with
    | .element _ a _ => some a
    | _ => none)

/-- The children of the document's `body` element. -/
def bodyChildren (n : ReactNode) : Option (List ReactNode) :=
  (bodyNode n).bind (fun b => match b with
    | .element _ _ ch => some ch
    | _ => none)

/-- The `className` attribute of the document's `body` element. -/
def bodyClassName (n : ReactNode) : Option String :=
  (bodyAttrs n).bind (fun a => a.lookup "className")

/-- The `lang` attribute of the document's root `html` element. -/
def rootLang : ReactNode → Option String
  | .element "html" a _ => a.lookup "lang"
  | _ => none

/-- The content slot of the provider element in a document shell: the
node wrapped by the sole component element inside the sole child of the
root element. -/
def providersSlot : ReactNode → Option ReactNode
  | .element _ _ [.element _ _ [.component _ [c]]] => some c
  | _ => none

/-- Replace the content slot of the provider element in a document
shell, leaving every other part of the tree unchanged. -/
def setProvidersSlot (n : ReactNode) (c : ReactNode) : ReactNode :=
  match n with
  | .element t a [.element bt ba [.component p [_]]] =>
      .element t a [.element bt ba [.component p [c]]]
  | other => other

/-- `true` exactly when the tree is a document shell: an `html` root
element whose sole child is a `body` element whose sole content is a
`Providers` component element wrapping a single node. -/
def isDocumentShell : ReactNode → Bool
  | .element "html" _ [.element "body" _ [.component "Providers" [_]]] => true
  | _ => false

/-- A state-passing rendering of `RootLayout`: the component body is a
single return of a JSX expression, so the ambient state `w` threads
through unchanged. -/
def RootLayoutRun (children : ReactNode) (w : List (String × String)) :
    ReactNode × List (String × String) :=
  (RootLayout children, w)

/-- C1: for every renderable children input (one introducing no further
`html` or `body` elements of its own), `RootLayout children` is a tree
with exactly one `html` element, which is the root, and exactly one
`body` element, whose sole content is a `Providers` element wrapping
exactly the given children. -/
theorem rootLayout_shell_structure (c : ReactNode)
    (hh : countTag "html" c = 0) (hb : countTag "body" c = 0) :
    countTag "html" (RootLayout c) = 1 ∧
    countTag "body" (RootLayout c) = 1 ∧
    rootTag (RootLayout c) = some "html" ∧
    bodyChildren (RootLayout c) = some [ReactNode.component "Providers" [c]] := by
  refine ⟨?_, ?_, rfl, rfl⟩ <;>
    simp [RootLayout, countTag, countTagList, hh, hb]

/-- Witness for C1 at the concrete children `ReactNode.text "page"`. -/
theorem rootLayout_shell_structure_witness :
    countTag "html" (ReactNode.text "page") = 0 ∧
    countTag "body" (ReactNode.text "page") = 0 ∧
    (countTag "html" (RootLayout (ReactNode.text "page")) = 1 ∧
     countTag "body" (RootLayout (ReactNode.text "page")) = 1 ∧
     rootTag (RootLayout (ReactNode.text "page")) = some "html" ∧
     bodyChildren (RootLayout (ReactNode.text "page")) =
       some [ReactNode.component "Providers" [ReactNode.text "page"]]) :=
  ⟨rfl, rfl, rootLayout_shell_structure (ReactNode.text "page") rfl rfl⟩

/-- C2: the children subtree embedded in `RootLayout`'s output is the
input children itself, untransformed: extracting the provider element's
content slot from the output returns exactly the input. -/
theorem rootLayout_children_preserved (c : ReactNode) :
    providersSlot (RootLayout c) = some c := rfl

/-- C3: `RootLayout` is total with no error branch: every input yields a
rendered document shell (an `html` root whose sole child is a `body`
whose sole content is a `Providers` element); no input makes the
component itself signal failure. -/
theorem rootLayout_total_shell (c : ReactNode) :
    isDocumentShell (RootLayout c) = true := rfl

/-- C4: rendering `RootLayout` is pure and deterministic: two
invocations with equal children produce equal outputs regardless of the
ambient state, and the ambient state is returned unchanged. -/
theorem rootLayout_pure_deterministic (c₁ c₂ : ReactNode)
    (w₁ w₂ : List (String × String)) (h : c₁ = c₂) :
    (RootLayoutRun c₁ w₁).1 = (RootLayoutRun c₂ w₂).1 ∧
    (RootLayoutRun c₁ w₁).2 = w₁ := by
  subst h; exact ⟨rfl, rfl⟩

/-- Witness for C4 at concrete children and two distinct states. -/
theorem rootLayout_pure_deterministic_witness :
    ReactNode.text "p" = ReactNode.text "p" ∧
    ((RootLayoutRun (ReactNode.text "p") [("k", "v")]).1 =
       (RootLayoutRun (ReactNode.text "p") []).1 ∧
     (RootLayoutRun (ReactNode.text "p") [("k", "v")]).2 = [("k", "v")]) :=
  ⟨rfl, rootLayout_pure_deterministic (ReactNode.text "p") (ReactNode.text "p")
    [("k", "v")] [] rfl⟩

/-- C5: for every children input, the `body` element of `RootLayout`'s
output carries the global font class: its `className` is the class name
of the `Inter` font instance loaded with the latin subset. -/
theorem rootLayout_body_font_class (c : ReactNode) :
    bodyClassName (RootLayout c) = some (Inter ["latin"]).className := rfl

/-- C6: the layout module statically imports exactly the declared
external assets and collaborators — the global stylesheet, the
framework's font-loading utility, the third-party viewer's stylesheet
and the `Providers` module — each exactly once. -/
theorem layout_imports_exact :
    moduleImports.Perm declaredImports ∧ moduleImports.Nodup := by decide

/-- C7: for every children input, the root `html` element of
`RootLayout`'s output carries the attribute `lang="en"`. -/
theorem rootLayout_html_lang_en (c : ReactNode) :
    rootLang (RootLayout c) = some "en" := rfl

/-- C8: the document shell is independent of the children: for any two
children inputs the outputs agree on the root tag, the root attributes
(hence the `lang` attribute) and the `body` attributes (hence the body
class name), and replacing the provider slot of the first output with
the second children yields exactly the second output. -/
theorem rootLayout_shell_independent_of_children (c₁ c₂ : ReactNode) :
    rootTag (RootLayout c₁) = rootTag (RootLayout c₂) ∧
    rootAttrs (RootLayout c₁) = rootAttrs (RootLayout c₂) ∧
    bodyAttrs (RootLayout c₁) = bodyAttrs (RootLayout c₂) ∧
    setProvidersSlot (RootLayout c₁) c₂ = RootLayout c₂ :=
  ⟨rfl, rfl, rfl, rfl⟩

end MolViewStories
